import Mathlib

/-!
Verification of the gml lifecycle-management subsystem (ephemeral GPU node
provisioning) against its natural-language specification.

The Rust sources are shallowly embedded: pure control flow becomes Lean
functions, external effects (HTTP calls, subprocess invocations, clock and
duration parsing from the chrono / humantime crates) become explicit oracle
parameters, and the persisted entity store is threaded as an explicit value.
-/

namespace Gml

/-- Error values of the system.  The Rust code uses a single `GmlError`
struct carrying a formatted message; each constructor below corresponds to
one distinct `GmlError::from(format!(...))` construction site, carrying the
data interpolated into the message at that site.  The spec's taxonomy maps
onto these: `apiError` is RemoteAPIError, `parseResponseFailed` is
ProtocolError, `timeoutExpired` is TimeoutError, `duplicateNode` is
DuplicateKeyError, `nodeNotFound` is NotFoundError. -/
inductive GmlError where
  | requestFailed (msg : String)
  | apiError (status : Nat) (body : String)
  | readBodyFailed (msg : String)
  | parseResponseFailed (msg : String)
  | timeoutExpired (instanceId : String) (minutes : Nat)
  | duplicateNode (id : String)
  | nodeNotFound (id : String)
  | providerNotInConfig (name : String)
  | providerUnimplemented (name : String)
  | missingCredential (field provider : String)
  | timestampParseFailed (id : String)
  | deleteCommandFailed (id : String)
  | otherError (msg : String)
  deriving DecidableEq, Repr

/-- `gml_core::NodeDetails`: the handle a provider returns for an instance
(`src/crates/core/src/lib.rs`). -/
structure NodeDetails where
  ip : String
  id : String
  deriving DecidableEq, Repr

/-! ## Readiness polling (`Lambda::get_node_ip`)

`src/crates/gml-cli/lambda/src/lib.rs` lines 190-239 (the variant in
`src/crates/lambda/src/lib.rs` lines 144-212 has identical control flow,
differing only in terminal-spinner UI calls).  One poll of the status
endpoint is an external HTTP interaction; its outcome, as seen by the loop
body, is abstracted as a `PollResponse` supplied by an environment
`env : Nat → PollResponse` mapping the attempt number to that attempt's
outcome. -/

/-- Outcome of one status-endpoint HTTP request, at the boundary where the
loop body inspects it: transport failure, non-success HTTP status, a body
that fails to read or to deserialize as `InfoResponse`, or a parsed
`InfoResponseData { ip : Option<String>, status : String }`. -/
inductive PollResponse where
  | sendFailed (msg : String)
  | httpFailure (status : Nat) (body : String)
  | bodyReadFailed (msg : String)
  | bodyParseFailed (msg : String)
  | info (ip : Option String) (status : String)
  deriving DecidableEq, Repr

/-- `MAX_RETRIES` in `get_node_ip`. -/
def MAX_RETRIES : Nat := 60

/-- `RETRY_DELAY_SECS` in `get_node_ip`. -/
def RETRY_DELAY_SECS : Nat := 10

/-- The `for attempt in 1..=MAX_RETRIES` loop of `get_node_ip`, with
`fuel` the number of attempts still available (so the loop entry is
`attempt = 1`, `fuel = MAX_RETRIES`, and `fuel = 0` is loop exhaustion).
Returns the loop outcome, the number of polls actually performed, and the
list of sleep durations (seconds) executed between polls. -/
def pollLoop (instanceId : String) (env : Nat → PollResponse) :
    Nat → Nat → Except GmlError String × Nat × List Nat
  | _, 0 =>
      (.error (.timeoutExpired instanceId (MAX_RETRIES * RETRY_DELAY_SECS / 60)), 0, [])
  | attempt, fuel + 1 =>
      match env attempt with
      | .sendFailed m => (.error (.requestFailed m), 1, [])
      | .httpFailure s b => (.error (.apiError s b), 1, [])
      | .bodyReadFailed m => (.error (.readBodyFailed m), 1, [])
      | .bodyParseFailed m => (.error (.parseResponseFailed m), 1, [])
      | .info ip status =>
          match ip with
          | some a =>
              if status = "active" then
                (.ok a, 1, [])
              else
                let rest := pollLoop instanceId env (attempt + 1) fuel
                (rest.1, rest.2.1 + 1,
                  (if attempt < MAX_RETRIES then [RETRY_DELAY_SECS] else []) ++ rest.2.2)
          | none =>
              let rest := pollLoop instanceId env (attempt + 1) fuel
              (rest.1, rest.2.1 + 1,
                (if attempt < MAX_RETRIES then [RETRY_DELAY_SECS] else []) ++ rest.2.2)

/-- `Lambda::get_node_ip`: poll the status endpoint for `instanceId` up to
`MAX_RETRIES` times, starting at attempt 1. -/
def get_node_ip (instanceId : String) (env : Nat → PollResponse) :
    Except GmlError String × Nat × List Nat :=
  pollLoop instanceId env 1 MAX_RETRIES

/-- The readiness condition the loop body tests: an IP is present in the
response and the status string equals "active". -/
def readyResponse (ip : Option String) (status : String) : Prop :=
  ip.isSome = true ∧ status = "active"

instance (ip : Option String) (status : String) : Decidable (readyResponse ip status) := by
  unfold readyResponse; infer_instance

/-! ## Entity store (`src/crates/cli/src/state.rs`)

`GmlState` is the snapshot schema persisted at `~/.gml/state.json`; each
mutating operation is load → mutate in memory → save.  The load and save IO
boundaries are made explicit: an operation takes the currently persisted
snapshot and yields its result together with the snapshot persisted
afterwards and whether `save` was invoked at all. -/

/-- `NodeEntry` of `src/crates/cli/src/state.rs`. -/
structure NodeEntry where
  id : String
  ip : String
  provider : String
  created_at : String
  instance_type : String
  deriving DecidableEq, Repr

/-- `ClusterEntry` of `src/crates/cli/src/state.rs`. -/
structure ClusterEntry where
  id : String
  provider : String
  created_at : String
  node_count : Nat
  timeout : Option String
  deriving DecidableEq, Repr

/-- `GmlState` of `src/crates/cli/src/state.rs`. -/
structure GmlState where
  nodes : List NodeEntry
  clusters : List ClusterEntry
  deriving DecidableEq, Repr

/-- Result of one store operation: the value returned to the caller, the
snapshot persisted after the call, and whether `save` ran. -/
structure StoreCallResult where
  result : Except GmlError Unit
  persisted : GmlState
  saved : Bool
  deriving Repr

/-- `GmlState::add_node` (`src/crates/cli/src/state.rs` lines 89-111):
build the entry (with `created_at = Utc::now().to_rfc3339()`, supplied here
as the `created_at` argument), reject a duplicate id before pushing, and
save only after a successful push. -/
def GmlState.add_node (st : GmlState) (node_details : NodeDetails)
    (provider instance_type created_at : String) : StoreCallResult :=
  let entry : NodeEntry :=
    { id := node_details.id, ip := node_details.ip, provider := provider,
      created_at := created_at, instance_type := instance_type }
  if st.nodes.any (fun n => n.id == entry.id) then
    ⟨.error (.duplicateNode entry.id), st, false⟩
  else
    ⟨.ok (), { st with nodes := st.nodes ++ [entry] }, true⟩

/-- `GmlState::remove_node` (`src/crates/cli/src/state.rs` lines 113-124):
retain entries with a different id; if the length is unchanged the id was
absent and nothing is saved. -/
def GmlState.remove_node (st : GmlState) (node_id : String) : StoreCallResult :=
  let remaining := st.nodes.filter (fun n => n.id ≠ node_id)
  if remaining.length = st.nodes.length then
    ⟨.error (.nodeNotFound node_id), st, false⟩
  else
    ⟨.ok (), { st with nodes := remaining }, true⟩

/-- `GmlState::get_node` (`src/crates/cli/src/state.rs` lines 126-130). -/
def GmlState.get_node (st : GmlState) (node_id : String) : Option NodeEntry :=
  st.nodes.find? (fun n => n.id == node_id)

/-! ### The persistence pattern of `GmlState::save`

`GmlState::save` (`src/crates/cli/src/state.rs` lines 69-86) is embedded as
the sequence of file-system operations it issues, so that the write pattern
itself (and what an interruption of it can leave behind) is the object of
study.  `fs::write` truncates the destination and then writes the buffer,
so the observable content of the destination `k` bytes into an interrupted
`fs::write` is the `k`-byte prefix of the buffer. -/

/-- A file-system operation issued by the store. -/
inductive FsOp where
  | createDirAll (path : String)
  | writeFile (path : String) (content : String)
  | renameFile (src dst : String)
  deriving DecidableEq, Repr

/-- `STATE_PATH` of `src/crates/cli/src/state.rs`. -/
def STATE_PATH : String := "~/.gml/state.json"

/-- `expand_path` (`src/crates/cli/src/state.rs` lines 191-200), with the
home directory supplied explicitly. -/
def expand_path (home : String) (path : String) : String :=
  if path.startsWith "~/" then home ++ "/" ++ (path.drop 2) else path

/-- The parent directory of a slash-separated path (`state_path.parent()`). -/
def parentDir (p : String) : String :=
  String.intercalate "/" (p.splitOn "/").dropLast

/-- The file-system operations issued by `GmlState::save`: create the state
directory, then one direct `fs::write` of the serialized snapshot (`json`)
to the snapshot path. -/
def save_ops (home : String) (json : String) : List FsOp :=
  let state_path := expand_path home STATE_PATH
  [FsOp.createDirAll (parentDir state_path), FsOp.writeFile state_path json]

/-- Follows the wording of the spec, not the source: an operation sequence
replaces `target` via the temp-write-then-replace pattern when some rename
installs `target` and no write addresses `target` directly. -/
def usesTempWriteReplace (target : String) (ops : List FsOp) : Bool :=
  (ops.any (fun op => match op with
    | .renameFile _ dst => dst == target
    | _ => false))
  && (ops.all (fun op => match op with
    | .writeFile p _ => p != target
    | _ => true))

/-- Content observed at the destination of an `fs::write` of `content`
interrupted after `k` bytes: the destination was truncated at open, so it
holds the `k`-byte prefix written so far. -/
def writeInterrupted (content : String) (k : Nat) : String :=
  ⟨content.data.take k⟩

/-! ## The `gml_core::state` store used by the orchestrator and the daemon

`src/crates/core/src/lib.rs` declares `pub mod state;`, and
`src/crates/cli/src/node.rs` and the daemons call
`gml_core::state::GmlState::{add_node, get_node, remove_node}` with node
entries carrying `user` and `timeout` fields — but the file of that module
is not under `src/`.  It is modelled here from the spec (§3 NodeEntity /
ClusterEntity, §4.1 store contract), consistently with the sibling
implementation in `src/crates/cli/src/state.rs`. -/

namespace Core

/-- Modelled from the spec: the `gml_core::state::NodeEntry` schema (the
module file is missing from `src/`); fields follow spec §3 NodeEntity and
the uses in `src/crates/cli/src/node.rs` (`user`, `timeout`) and
`src/crates/gml-cli/daemon/src/main.rs` (`id`, `timeout`). -/
structure NodeEntry where
  id : String
  provider_id : String
  ip : String
  provider : String
  created_at : String
  instance_type : String
  user : String
  timeout : Option String
  deriving DecidableEq, Repr

/-- Modelled from the spec: `gml_core::state::ClusterEntry` (spec §3
ClusterEntity). -/
structure ClusterEntry where
  id : String
  provider : String
  created_at : String
  node_count : Nat
  timeout : Option String
  deriving DecidableEq, Repr

/-- Modelled from the spec: `gml_core::state::GmlState` — the persisted
collection of nodes and clusters (spec §4.1, §6). -/
structure GmlState where
  nodes : List NodeEntry
  clusters : List ClusterEntry
  deriving DecidableEq, Repr

/-- Modelled from the spec: `gml_core::state::GmlState::add_node` — load →
duplicate-id check (DuplicateKeyError) → push → save (spec §4.1), matching
the call shape in `src/crates/cli/src/node.rs` line 54 and the sibling
implementation in `src/crates/cli/src/state.rs`.  `created_at` stands for
the `Utc::now().to_rfc3339()` taken inside the call. -/
def GmlState.add_node (st : GmlState) (node_details : NodeDetails)
    (provider instance_type : String) (timeout : Option String)
    (user created_at : String) : Except GmlError GmlState :=
  if st.nodes.any (fun n => n.id == node_details.id) then
    .error (.duplicateNode node_details.id)
  else
    .ok { st with nodes := st.nodes ++
      [{ id := node_details.id, provider_id := node_details.id,
         ip := node_details.ip, provider := provider,
         created_at := created_at, instance_type := instance_type,
         user := user, timeout := timeout }] }

/-- Modelled from the spec: `gml_core::state::GmlState::remove_node` —
retain entries with a different id, NotFoundError when nothing matched
(spec §4.1), as in `src/crates/cli/src/state.rs`. -/
def GmlState.remove_node (st : GmlState) (node_id : String) : Except GmlError GmlState :=
  let remaining := st.nodes.filter (fun n => n.id ≠ node_id)
  if remaining.length = st.nodes.length then
    .error (.nodeNotFound node_id)
  else
    .ok { st with nodes := remaining }

/-- Modelled from the spec: `gml_core::state::GmlState::get_node` (spec
§4.1), as in `src/crates/cli/src/state.rs`. -/
def GmlState.get_node (st : GmlState) (node_id : String) : Option NodeEntry :=
  st.nodes.find? (fun n => n.id == node_id)

end Core

/-! ## Orchestrator (`src/crates/cli/src/node.rs`)

`handle_create_node` (lines 20-59) and `handle_delete_node` (lines 61-94),
with every external interaction an explicit environment field: daemon
spawn-check, config parse, provider lookup and handle construction, the
provider's `start_node` / `stop_node` / `get_user` calls, the humantime
duration parser and the chrono clock.  Each function returns its result,
the persisted store after the call, and the trace of remote-call and
store-mutation events in execution order. -/

/-- Events recording the order of remote-provider calls and persisted
store mutations inside one orchestrator operation. -/
inductive OrchEvent where
  | startNodeOk
  | startNodeErr
  | stopNodeOk
  | stopNodeErr
  | storeAddOk
  | storeAddErr
  | storeRemoveOk
  | storeRemoveErr
  deriving DecidableEq, Repr

/-- `every occurrence of b in the list is preceded by an earlier a`:
scanning left to right with `seen` recording whether `a` has appeared. -/
def allPrecededBy (a b : OrchEvent) (seen : Bool) : List OrchEvent → Bool
  | [] => true
  | x :: xs => (!(x == b) || seen) && allPrecededBy a b (seen || x == a) xs

/-- External-world outcomes consumed by `handle_create_node`, one field per
interaction in source order. -/
structure CreateEnv where
  ensure_daemon : Except GmlError Unit
  parse_config : Except GmlError Unit
  providerInConfig : Bool
  provider_handle : Except GmlError Unit
  start_node : Except GmlError NodeDetails
  get_user : Except GmlError String
  humantimeParse : String → Option Int
  chronoFromStd : Int → Option Int
  now : Int
  fmtTs : Int → String

/-- `parse_timeout_duration` (`src/crates/cli/src/node.rs` lines 324-328):
`humantime::parse_duration(..).ok().and_then(|d| chrono::Duration::from_std(d).ok())`,
with the two external parsers supplied as oracles. -/
def parse_timeout_duration (humantimeParse : String → Option Int)
    (chronoFromStd : Int → Option Int) (timeout_str : String) : Option Int :=
  (humantimeParse timeout_str).bind chronoFromStd

/-- `handle_create_node` (`src/crates/cli/src/node.rs` lines 20-59). -/
def handle_create_node (env : CreateEnv) (provider instance_type timeout : String)
    (st : Core.GmlState) : Except GmlError Unit × Core.GmlState × List OrchEvent :=
  match env.ensure_daemon with
  | .error e => (.error e, st, [])
  | .ok _ =>
    match env.parse_config with
    | .error e => (.error e, st, [])
    | .ok _ =>
      if env.providerInConfig then
        match env.provider_handle with
        | .error e => (.error e, st, [])
        | .ok _ =>
          match env.start_node with
          | .error e => (.error e, st, [.startNodeErr])
          | .ok details =>
            match env.get_user with
            | .error e => (.error e, st, [.startNodeOk])
            | .ok user =>
              let timeout_expiration :=
                (parse_timeout_duration env.humantimeParse env.chronoFromStd timeout).map
                  (fun d => env.fmtTs (env.now + d))
              match Core.GmlState.add_node st details provider instance_type
                  timeout_expiration user (env.fmtTs env.now) with
              | .error e => (.error e, st, [.startNodeOk, .storeAddErr])
              | .ok st2 => (.ok (), st2, [.startNodeOk, .storeAddOk])
      else
        (.error (.providerNotInConfig provider), st, [])

/-- External-world outcomes consumed by `handle_delete_node`. -/
structure DeleteEnv where
  parse_config : Except GmlError Unit
  providerInConfig : Bool
  provider_handle : Except GmlError Unit
  stop_node : Except GmlError NodeDetails

/-- `handle_delete_node` (`src/crates/cli/src/node.rs` lines 61-94). -/
def handle_delete_node (env : DeleteEnv) (id : String) (st : Core.GmlState) :
    Except GmlError Unit × Core.GmlState × List OrchEvent :=
  match Core.GmlState.get_node st id with
  | none => (.error (.nodeNotFound id), st, [])
  | some node =>
    match env.parse_config with
    | .error e => (.error e, st, [])
    | .ok _ =>
      if env.providerInConfig then
        match env.provider_handle with
        | .error e => (.error e, st, [])
        | .ok _ =>
          match env.stop_node with
          | .error e => (.error e, st, [.stopNodeErr])
          | .ok _ =>
            match Core.GmlState.remove_node st id with
            | .error e => (.error e, st, [.stopNodeOk, .storeRemoveErr])
            | .ok st2 => (.ok (), st2, [.stopNodeOk, .storeRemoveOk])
      else
        (.error (.providerNotInConfig node.provider), st, [])

/-! ## Reconciliation daemon (`src/crates/gml-cli/daemon/src/main.rs`)

One iteration of the daemon's infinite loop — a tick — loads the full
collection and, for every node and cluster entry carrying a `timeout`
string, runs `handle_node_timeout` / `handle_cluster_timeout`: parse the
RFC3339 timestamp, skip if `now < timeout`, otherwise spawn
`gml node delete <id>` / `gml cluster delete <id>` and report its exit
status.  (`src/crates/daemon/src/main.rs` is the same loop logging to
stdout instead of `~/.gml/gmld.log`.)

External boundaries become oracles: `parseTs` is chrono's
`DateTime::parse_from_rfc3339`, `now` the tick's `Utc::now()`, and
`deleteNodeOk` / `deleteClusterOk` the exit status of the spawned delete
subprocess.  A successful subprocess delete removes the entry from the
persisted store (it runs `handle_delete_node`, whose successful path ends
in `remove_node`); a failed one leaves the persisted store untouched.  A
per-entry failure is logged as an event and the loop continues. -/

/-- Observable per-entry outcomes of one tick, in processing order. -/
inductive TickEvent where
  | nodeParseFailed (id : String)
  | nodeDeleted (id : String)
  | nodeDeleteFailed (id : String)
  | clusterParseFailed (id : String)
  | clusterDeleted (id : String)
  | clusterDeleteFailed (id : String)
  deriving DecidableEq, Repr

/-- The expiry test of `handle_node_timeout` (daemon lines 86-115): a
timeout string is present, parses, and the parsed instant is not in the
future (`now < timeout_utc` is the skip condition, so expiry is
`timeout ≤ now`). -/
def expiredNode (parseTs : String → Option Int) (now : Int) (e : Core.NodeEntry) : Bool :=
  match e.timeout with
  | none => false
  | some s =>
    match parseTs s with
    | none => false
    | some t => decide (t ≤ now)

/-- The expiry test of `handle_cluster_timeout` (daemon lines 117-147). -/
def expiredCluster (parseTs : String → Option Int) (now : Int) (c : Core.ClusterEntry) : Bool :=
  match c.timeout with
  | none => false
  | some s =>
    match parseTs s with
    | none => false
    | some t => decide (t ≤ now)

/-- Processing of one node entry inside a tick: the body of the
`for node_entry in &state.nodes` loop (daemon lines 57-64) together with
`handle_node_timeout` (lines 86-115), threading the persisted store and
the event log.  A successful `gml node delete` removes the id from the
persisted nodes (the `retain` of `remove_node`); every failure is logged
and processing continues. -/
def nodeStep (parseTs : String → Option Int) (now : Int) (deleteNodeOk : String → Bool)
    (acc : Core.GmlState × List TickEvent) (e : Core.NodeEntry) :
    Core.GmlState × List TickEvent :=
  match e.timeout with
  | none => acc
  | some s =>
    match parseTs s with
    | none => (acc.1, acc.2 ++ [.nodeParseFailed e.id])
    | some t =>
      if now < t then acc
      else if deleteNodeOk e.id then
        ({ acc.1 with nodes := acc.1.nodes.filter (fun n => n.id != e.id) },
          acc.2 ++ [.nodeDeleted e.id])
      else
        (acc.1, acc.2 ++ [.nodeDeleteFailed e.id])

/-- Processing of one cluster entry inside a tick (daemon lines 66-73 and
117-147), symmetric to `nodeStep`. -/
def clusterStep (parseTs : String → Option Int) (now : Int)
    (deleteClusterOk : String → Bool) (acc : Core.GmlState × List TickEvent)
    (c : Core.ClusterEntry) : Core.GmlState × List TickEvent :=
  match c.timeout with
  | none => acc
  | some s =>
    match parseTs s with
    | none => (acc.1, acc.2 ++ [.clusterParseFailed c.id])
    | some t =>
      if now < t then acc
      else if deleteClusterOk c.id then
        ({ acc.1 with clusters := acc.1.clusters.filter (fun k => k.id != c.id) },
          acc.2 ++ [.clusterDeleted c.id])
      else
        (acc.1, acc.2 ++ [.clusterDeleteFailed c.id])

/-- One daemon tick (daemon lines 50-83): iterate over the nodes of the
snapshot loaded at tick start, then over its clusters, threading the
persisted store and collecting events. -/
def tick (parseTs : String → Option Int) (now : Int)
    (deleteNodeOk deleteClusterOk : String → Bool) (st : Core.GmlState) :
    Core.GmlState × List TickEvent :=
  let afterNodes := st.nodes.foldl (nodeStep parseTs now deleteNodeOk) (st, [])
  st.clusters.foldl (clusterStep parseTs now deleteClusterOk) afterNodes

/-- The id carried by a node-deletion attempt event (successful or not). -/
def nodeAttemptId : TickEvent → Option String
  | .nodeDeleted id => some id
  | .nodeDeleteFailed id => some id
  | _ => none

/-- The id carried by a cluster-deletion attempt event. -/
def clusterAttemptId : TickEvent → Option String
  | .clusterDeleted id => some id
  | .clusterDeleteFailed id => some id
  | _ => none

/-- Ids of node entries whose deletion a tick attempted, in order. -/
def nodeDeleteAttempts (evts : List TickEvent) : List String :=
  evts.filterMap nodeAttemptId

/-- Ids of cluster entries whose deletion a tick attempted, in order. -/
def clusterDeleteAttempts (evts : List TickEvent) : List String :=
  evts.filterMap clusterAttemptId

/-- A node entry `n` survives the node passes of a tick over entries `l`:
no processed entry is expired, successfully deleted, and id-equal to `n`. -/
def nodeSurvives (parseTs : String → Option Int) (now : Int)
    (deleteNodeOk : String → Bool) (l : List Core.NodeEntry)
    (n : Core.NodeEntry) : Bool :=
  l.all (fun e => !(expiredNode parseTs now e && deleteNodeOk e.id && n.id == e.id))

/-- A cluster entry `c` survives the cluster passes of a tick. -/
def clusterSurvives (parseTs : String → Option Int) (now : Int)
    (deleteClusterOk : String → Bool) (l : List Core.ClusterEntry)
    (c : Core.ClusterEntry) : Bool :=
  l.all (fun e => !(expiredCluster parseTs now e && deleteClusterOk e.id && c.id == e.id))

/-! ## Node-type catalogue filtering (`Lambda::get_node_types`)

`src/crates/gml-cli/lambda/src/lib.rs` lines 147-186: after a successful
HTTP fetch the response body is parsed as JSON and, when the top-level
`"data"` member is an object, its entries are retained exactly when
`regions_with_capacity_available` is a non-empty array.  The JSON values
are embedded as an inductive (serde_json object maps have unique keys, so
the in-place mutation of the unique `"data"` entry is embedded as a
key-preserving value map). -/

/-- serde_json `Value`. -/
inductive Json where
  | null
  | jbool (b : Bool)
  | jnum (n : Int)
  | jstr (s : String)
  | jarr (elems : List Json)
  | jobj (fields : List (String × Json))
  deriving Repr

/-- `Value::get(key)`: member lookup on an object, `None` otherwise. -/
def jsonGet (j : Json) (key : String) : Option Json :=
  match j with
  | .jobj fields => List.lookup key fields
  | _ => none

/-- The retain predicate of `get_node_types` (lines 174-179):
`instance_data.get("regions_with_capacity_available")` must be an array
and non-empty. -/
def availNonEmpty (instance_data : Json) : Bool :=
  match jsonGet instance_data "regions_with_capacity_available" with
  | some (.jarr regions) => !regions.isEmpty
  | _ => false

/-- The value transformation applied at each top-level member by
`get_node_types`: the (unique) `"data"` member, when it is an object, has
its entries filtered by `availNonEmpty`; everything else is untouched. -/
def filterDataValue (key : String) (v : Json) : Json :=
  if key = "data" then
    match v with
    | .jobj dataFields => Json.jobj (dataFields.filter (fun p => availNonEmpty p.2))
    | w => w
  else v

/-- The JSON rewriting performed by `get_node_types` (lines 168-180) on the
parsed response body. -/
def get_node_types_filter (j : Json) : Json :=
  match j with
  | .jobj fields => .jobj (fields.map (fun kv => (kv.1, filterDataValue kv.1 kv.2)))
  | j => j

lemma pollLoop_fuel_zero (iid : String) (env : Nat → PollResponse) (attempt : Nat) :
    pollLoop iid env attempt 0 =
      (.error (.timeoutExpired iid (MAX_RETRIES * RETRY_DELAY_SECS / 60)), 0, []) := rfl

lemma pollLoop_count_pos (iid : String) (env : Nat → PollResponse) (attempt fuel : Nat) :
    1 ≤ (pollLoop iid env attempt (fuel + 1)).2.1 := by
  cases henv : env attempt <;> simp only [pollLoop, henv]
  case info ip status =>
    cases ip with
    | some a =>
        by_cases hs : status = "active" <;> simp [hs]
    | none => simp
  all_goals simp

lemma pollLoop_allNotReady (iid : String) (env : Nat → PollResponse)
    (h : ∀ n, ∃ ip status, env n = .info ip status ∧ ¬ readyResponse ip status) :
    ∀ fuel attempt, attempt + fuel = MAX_RETRIES + 1 →
      pollLoop iid env attempt fuel =
        (.error (.timeoutExpired iid (MAX_RETRIES * RETRY_DELAY_SECS / 60)), fuel,
          List.replicate (fuel - 1) RETRY_DELAY_SECS) := by
  intro fuel
  induction fuel with
  | zero => intro attempt _; simp [pollLoop_fuel_zero]
  | succ g ih =>
      intro attempt hsum
      obtain ⟨ip, status, henv, hnr⟩ := h attempt
      have hrec := ih (attempt + 1) (by omega)
      have hattempt : attempt = MAX_RETRIES - g := by
        unfold MAX_RETRIES at hsum ⊢; omega
      cases ip with
      | some a =>
          have hs : ¬ status = "active" := by
            intro hc; exact hnr ⟨rfl, hc⟩
          simp only [pollLoop, henv, hs, if_false, hrec]
          cases g with
          | zero =>
              have : ¬ attempt < MAX_RETRIES := by
                unfold MAX_RETRIES at hsum ⊢; omega
              simp [this]
          | succ s =>
              have : attempt < MAX_RETRIES := by
                unfold MAX_RETRIES at hsum ⊢; omega
              simp [this, List.replicate_succ]
      | none =>
          simp only [pollLoop, henv, hrec]
          cases g with
          | zero =>
              have : ¬ attempt < MAX_RETRIES := by
                unfold MAX_RETRIES at hsum ⊢; omega
              simp [this]
          | succ s =>
              have : attempt < MAX_RETRIES := by
                unfold MAX_RETRIES at hsum ⊢; omega
              simp [this, List.replicate_succ]

/-- C2: on every poll iteration with at least one attempt of budget left and
whose status response parsed to `info ip status`, the loop returns success
with address `a` from this very response (one poll consumed) if and only if
the response carried `ip = some a` and `status = "active"` simultaneously;
and any response failing that joint condition leaves the loop outcome equal
to that of continuing the poll at the next attempt. -/
theorem poll_ready_iff_ip_and_active (iid : String) (env : Nat → PollResponse)
    (attempt fuel : Nat) (ip : Option String) (status : String)
    (h : env attempt = .info ip status) :
    (∀ a : String,
      ((pollLoop iid env attempt (fuel + 1)).1 = .ok a ∧
        (pollLoop iid env attempt (fuel + 1)).2.1 = 1)
        ↔ (ip = some a ∧ status = "active"))
    ∧ (¬ readyResponse ip status →
        (pollLoop iid env attempt (fuel + 1)).1 = (pollLoop iid env (attempt + 1) fuel).1) := by
  cases ip with
  | some a0 =>
      by_cases hs : status = "active"
      · subst hs
        have hred : pollLoop iid env attempt (fuel + 1) = (.ok a0, 1, []) := by
          simp [pollLoop, h]
        constructor
        · intro a
          rw [hred]
          constructor
          · rintro ⟨h1, -⟩
            cases h1
            exact ⟨rfl, rfl⟩
          · rintro ⟨h1, -⟩
            cases h1
            exact ⟨rfl, rfl⟩
        · intro hnr
          exact absurd ⟨rfl, rfl⟩ hnr
      · have hres : (pollLoop iid env attempt (fuel + 1)).1 =
            (pollLoop iid env (attempt + 1) fuel).1 := by
          simp [pollLoop, h, hs]
        have hcnt : (pollLoop iid env attempt (fuel + 1)).2.1 =
            (pollLoop iid env (attempt + 1) fuel).2.1 + 1 := by
          simp [pollLoop, h, hs]
        constructor
        · intro a
          constructor
          · rintro ⟨h1, h2⟩
            exfalso
            rw [hcnt] at h2
            cases fuel with
            | zero =>
                rw [hres, pollLoop_fuel_zero] at h1
                exact Except.noConfusion h1
            | succ g =>
                have := pollLoop_count_pos iid env (attempt + 1) g
                omega
          · rintro ⟨-, h2⟩
            exact absurd h2 hs
        · intro _
          exact hres
  | none =>
      have hres : (pollLoop iid env attempt (fuel + 1)).1 =
          (pollLoop iid env (attempt + 1) fuel).1 := by
        simp [pollLoop, h]
      have hcnt : (pollLoop iid env attempt (fuel + 1)).2.1 =
          (pollLoop iid env (attempt + 1) fuel).2.1 + 1 := by
        simp [pollLoop, h]
      constructor
      · intro a
        constructor
        · rintro ⟨h1, h2⟩
          exfalso
          rw [hcnt] at h2
          cases fuel with
          | zero =>
              rw [hres, pollLoop_fuel_zero] at h1
              exact Except.noConfusion h1
          | succ g =>
              have := pollLoop_count_pos iid env (attempt + 1) g
              omega
        · rintro ⟨h1, -⟩
          exact Option.noConfusion h1
      · intro _
        exact hres

/-- Witness for C2 at a concrete environment: the response
`info (some "10.0.0.1") "active"` at attempt 1 makes the poll succeed in one
attempt, and the response `info (some "10.0.0.2") "booting"` does not. -/
theorem poll_ready_iff_ip_and_active_witness :
    ((pollLoop "i-1" (fun _ => .info (some "10.0.0.1") "active") 1 3).1 = .ok "10.0.0.1" ∧
      (pollLoop "i-1" (fun _ => .info (some "10.0.0.1") "active") 1 3).2.1 = 1)
    ∧ (pollLoop "i-2" (fun _ => .info (some "10.0.0.2") "booting") 1 3).1 =
        (pollLoop "i-2" (fun _ => .info (some "10.0.0.2") "booting") 2 2).1 := by
  constructor
  · exact ((poll_ready_iff_ip_and_active "i-1" (fun _ => .info (some "10.0.0.1") "active")
      1 2 (some "10.0.0.1") "active" rfl).1 "10.0.0.1").mpr ⟨rfl, rfl⟩
  · exact (poll_ready_iff_ip_and_active "i-2" (fun _ => .info (some "10.0.0.2") "booting")
      1 2 (some "10.0.0.2") "booting" rfl).2 (by simp [readyResponse])

/-- C3: against an environment whose every response is a success HTTP
response that never simultaneously carries an address and status "active",
`get_node_ip` performs exactly 60 polls, sleeps 10 seconds between
consecutive polls (59 sleeps), and fails with the timeout error (the
TimeoutError of the spec taxonomy, naming the instance and the elapsed 10
minutes). -/
theorem poll_timeout_after_sixty_attempts (iid : String) (env : Nat → PollResponse)
    (h : ∀ n, ∃ ip status, env n = .info ip status ∧ ¬ readyResponse ip status) :
    get_node_ip iid env =
      (.error (.timeoutExpired iid 10), 60, List.replicate 59 10) := by
  have := pollLoop_allNotReady iid env h MAX_RETRIES 1 (by unfold MAX_RETRIES; omega)
  unfold get_node_ip
  rw [this]
  rfl

/-- Witness for C3: a provider stub that always answers with no address and
status "booting" drives `get_node_ip` to the timeout error after exactly 60
attempts with 59 ten-second sleeps. -/
theorem poll_timeout_after_sixty_attempts_witness :
    get_node_ip "i-42" (fun _ => .info none "booting") =
      (.error (.timeoutExpired "i-42" 10), 60, List.replicate 59 10) :=
  poll_timeout_after_sixty_attempts "i-42" (fun _ => .info none "booting")
    (fun _ => ⟨none, "booting", rfl, by simp [readyResponse]⟩)

/-- C4: a non-success HTTP response at any poll aborts the loop immediately
with the RemoteAPIError carrying that status and body — exactly one poll is
consumed and no sleep is performed; and conversely, whenever the loop
consumes a second poll, the first response was a success response that was
merely not yet ready (parsed `info` lacking the address-and-active
condition). -/
theorem poll_http_error_aborts (iid : String) (env : Nat → PollResponse)
    (attempt fuel : Nat) (s : Nat) (b : String) :
    (env attempt = .httpFailure s b →
      pollLoop iid env attempt (fuel + 1) = (.error (.apiError s b), 1, []))
    ∧ (2 ≤ (pollLoop iid env attempt (fuel + 1)).2.1 →
        ∃ ip status, env attempt = .info ip status ∧ ¬ readyResponse ip status) := by
  constructor
  · intro h
    simp [pollLoop, h]
  · intro hcount
    cases henv : env attempt with
    | sendFailed m => simp [pollLoop, henv] at hcount
    | httpFailure s0 b0 => simp [pollLoop, henv] at hcount
    | bodyReadFailed m => simp [pollLoop, henv] at hcount
    | bodyParseFailed m => simp [pollLoop, henv] at hcount
    | info ip status =>
        refine ⟨ip, status, rfl, ?_⟩
        intro hr
        obtain ⟨hip, hs⟩ := hr
        cases ip with
        | none => simp at hip
        | some a => simp [pollLoop, henv, hs] at hcount

/-- Witness for C4: an environment answering HTTP 500 with body "oom" at
attempt 1 makes the loop abort at once with `apiError 500 "oom"`; and an
environment whose loop consumes two polls indeed produced a not-yet-ready
success response first. -/
theorem poll_http_error_aborts_witness :
    pollLoop "i-9" (fun _ => .httpFailure 500 "oom") 1 3 =
        (.error (.apiError 500 "oom"), 1, [])
    ∧ ∃ ip status,
        (fun _ => PollResponse.info none "booting") 1 = PollResponse.info ip status ∧
          ¬ readyResponse ip status := by
  constructor
  · exact (poll_http_error_aborts "i-9" (fun _ => .httpFailure 500 "oom") 1 2 500 "oom").1 rfl
  · refine (poll_http_error_aborts "i-9b" (fun _ => .info none "booting") 1 2 0 "").2 ?_
    have h3 : (pollLoop "i-9b" (fun _ => PollResponse.info none "booting") 1 (2 + 1)).2.1 = 3 :=
      rfl
    omega

/-- C5 counterexample: `GmlState::save` does not follow the
temp-write-then-replace pattern — its operation sequence renames nothing
and writes the serialized snapshot directly to the snapshot path — and an
`fs::write` of the new encoding interrupted after 3 bytes leaves at the
snapshot path a content that is a complete encoding of neither the old nor
the new snapshot. -/
theorem save_not_temp_write_replace :
    usesTempWriteReplace (expand_path "/home/u" STATE_PATH)
        (save_ops "/home/u" "newsnapshotjson") = false
    ∧ FsOp.writeFile (expand_path "/home/u" STATE_PATH) "newsnapshotjson" ∈
        save_ops "/home/u" "newsnapshotjson"
    ∧ writeInterrupted "newsnapshotjson" 3 ≠ "oldsnapshotjson"
    ∧ writeInterrupted "newsnapshotjson" 3 ≠ "newsnapshotjson" := by
  refine ⟨by decide, by simp [save_ops], by decide, by decide⟩

/-- C5 amended: for every home directory and serialized snapshot, `save`
issues exactly a directory creation followed by one direct write of the
snapshot encoding to the snapshot path (no temp file, no rename — the
temp-write-then-replace pattern is not used), so an interruption strictly
inside that write leaves at the snapshot path a strict prefix of the new
encoding rather than a complete encoding. -/
theorem save_direct_write (home json : String) (k : Nat) (hk : k < json.length) :
    save_ops home json =
      [FsOp.createDirAll (parentDir (expand_path home STATE_PATH)),
        FsOp.writeFile (expand_path home STATE_PATH) json]
    ∧ usesTempWriteReplace (expand_path home STATE_PATH) (save_ops home json) = false
    ∧ writeInterrupted json k ≠ json := by
  refine ⟨rfl, ?_, ?_⟩
  · simp [usesTempWriteReplace, save_ops]
  · intro hc
    have hd : json.data.take k = json.data := congrArg String.data hc
    have h2 := congrArg List.length hd
    rw [List.length_take] at h2
    have hlen : json.length = json.data.length := rfl
    omega

/-- Witness for the amended C5 at a concrete home, snapshot and
interruption point. -/
theorem save_direct_write_witness :
    save_ops "/home/u" "newsnapshotjson" =
      [FsOp.createDirAll (parentDir (expand_path "/home/u" STATE_PATH)),
        FsOp.writeFile (expand_path "/home/u" STATE_PATH) "newsnapshotjson"]
    ∧ usesTempWriteReplace (expand_path "/home/u" STATE_PATH)
        (save_ops "/home/u" "newsnapshotjson") = false
    ∧ writeInterrupted "newsnapshotjson" 3 ≠ "newsnapshotjson" :=
  save_direct_write "/home/u" "newsnapshotjson" 3 (by decide)

/-- C6: adding a node whose id already exists in the node collection fails
with the duplicate-key error, invokes no save, and leaves the persisted
collection — in particular the existing entity with that id — exactly as
it was before the call. -/
theorem add_node_duplicate_noop (st : GmlState) (details : NodeDetails)
    (provider instance_type created_at : String)
    (h : ∃ n ∈ st.nodes, n.id = details.id) :
    st.add_node details provider instance_type created_at =
      ⟨.error (.duplicateNode details.id), st, false⟩ := by
  obtain ⟨n, hn, hid⟩ := h
  have hany : st.nodes.any (fun n => n.id == details.id) = true := by
    rw [List.any_eq_true]
    exact ⟨n, hn, by simp [hid]⟩
  simp [GmlState.add_node, hany]

lemma create_trace_cases (env : CreateEnv) (p i t : String) (st : Core.GmlState) :
    (handle_create_node env p i t st).2.2 = [] ∨
    (handle_create_node env p i t st).2.2 = [.startNodeErr] ∨
    (handle_create_node env p i t st).2.2 = [.startNodeOk] ∨
    (handle_create_node env p i t st).2.2 = [.startNodeOk, .storeAddErr] ∨
    (handle_create_node env p i t st).2.2 = [.startNodeOk, .storeAddOk] := by
  unfold handle_create_node
  repeat' split
  all_goals try (simp only [Core.GmlState.add_node]; split <;> simp)
  all_goals simp

lemma delete_trace_cases (env : DeleteEnv) (id : String) (st : Core.GmlState) :
    (handle_delete_node env id st).2.2 = [] ∨
    (handle_delete_node env id st).2.2 = [.stopNodeErr] ∨
    (handle_delete_node env id st).2.2 = [.stopNodeOk, .storeRemoveErr] ∨
    (handle_delete_node env id st).2.2 = [.stopNodeOk, .storeRemoveOk] := by
  unfold handle_delete_node
  repeat' split
  all_goals simp

lemma create_store_unchanged_on_start_err (env : CreateEnv) (p i t : String)
    (st : Core.GmlState) (e : GmlError) (he : env.start_node = .error e) :
    (handle_create_node env p i t st).2.1 = st := by
  obtain ⟨d, c, pic, ph, sn, gu, hpar, cf, now, fmt⟩ := env
  simp only at he
  subst he
  cases d <;> cases c <;> cases pic <;> cases ph <;> simp [handle_create_node]

lemma delete_store_unchanged_on_stop_err (env : DeleteEnv) (id : String)
    (st : Core.GmlState) (e : GmlError) (he : env.stop_node = .error e) :
    (handle_delete_node env id st).2.1 = st := by
  obtain ⟨c, pic, ph, sp⟩ := env
  simp only at he
  subst he
  cases hg : Core.GmlState.get_node st id <;> cases c <;> cases pic <;> cases ph <;>
    simp [handle_delete_node, hg]

/-- C1: in every execution of the orchestrator, each persisted store
mutation event is preceded in the trace by a successful remote-provider
call — a store add only after `start_node` succeeded, a store removal only
after `stop_node` succeeded — and when `start_node` (resp. `stop_node`)
fails, the store persisted after the operation is exactly the store from
before it. -/
theorem orchestrator_remote_effects_precede_store (cenv : CreateEnv) (denv : DeleteEnv)
    (provider instance_type timeout id : String) (stc std : Core.GmlState) :
    allPrecededBy .startNodeOk .storeAddOk false
        (handle_create_node cenv provider instance_type timeout stc).2.2 = true
    ∧ (∀ e, cenv.start_node = .error e →
        (handle_create_node cenv provider instance_type timeout stc).2.1 = stc)
    ∧ allPrecededBy .stopNodeOk .storeRemoveOk false
        (handle_delete_node denv id std).2.2 = true
    ∧ (∀ e, denv.stop_node = .error e →
        (handle_delete_node denv id std).2.1 = std) := by
  refine ⟨?_, ?_, ?_, ?_⟩
  · rcases create_trace_cases cenv provider instance_type timeout stc with h | h | h | h | h <;>
      rw [h] <;> rfl
  · intro e he
    exact create_store_unchanged_on_start_err cenv provider instance_type timeout stc e he
  · rcases delete_trace_cases denv id std with h | h | h | h <;> rw [h] <;> rfl
  · intro e he
    exact delete_store_unchanged_on_stop_err denv id std e he

/-- Witness for C1: with a provider whose `start_node` fails with a
transport error, create leaves the (empty) store untouched; with a
provider whose `stop_node` fails with HTTP 500, delete leaves the
one-node store untouched. -/
theorem orchestrator_remote_effects_precede_store_witness :
    (handle_create_node
        ⟨.ok (), .ok (), true, .ok (), .error (.requestFailed "conn"), .ok "ubuntu",
          fun _ => none, fun d => some d, 0, fun _ => "t"⟩
        "lambda" "gpu_1x_a10" "1h" ⟨[], []⟩).2.1 = ⟨[], []⟩
    ∧ (handle_delete_node ⟨.ok (), true, .ok (), .error (.apiError 500 "oops")⟩
        "n1" ⟨[⟨"n1", "n1", "1.2.3.4", "lambda", "t0", "gpu_1x_a10", "ubuntu", none⟩], []⟩).2.1 =
      ⟨[⟨"n1", "n1", "1.2.3.4", "lambda", "t0", "gpu_1x_a10", "ubuntu", none⟩], []⟩ := by
  constructor
  · exact (orchestrator_remote_effects_precede_store
      ⟨.ok (), .ok (), true, .ok (), .error (.requestFailed "conn"), .ok "ubuntu",
        fun _ => none, fun d => some d, 0, fun _ => "t"⟩
      ⟨.ok (), true, .ok (), .error (.apiError 500 "oops")⟩
      "lambda" "gpu_1x_a10" "1h" "n1" ⟨[], []⟩
      ⟨[⟨"n1", "n1", "1.2.3.4", "lambda", "t0", "gpu_1x_a10", "ubuntu", none⟩], []⟩).2.1
      (.requestFailed "conn") rfl
  · exact (orchestrator_remote_effects_precede_store
      ⟨.ok (), .ok (), true, .ok (), .error (.requestFailed "conn"), .ok "ubuntu",
        fun _ => none, fun d => some d, 0, fun _ => "t"⟩
      ⟨.ok (), true, .ok (), .error (.apiError 500 "oops")⟩
      "lambda" "gpu_1x_a10" "1h" "n1" ⟨[], []⟩
      ⟨[⟨"n1", "n1", "1.2.3.4", "lambda", "t0", "gpu_1x_a10", "ubuntu", none⟩], []⟩).2.2.2
      (.apiError 500 "oops") rfl

/-- C10: when the timeout argument fails humantime parsing, create does not
fail — with the daemon check, config, provider handle, `start_node` and
`get_user` all succeeding and the provider-assigned id fresh, the operation
returns success and records the node with no timeout at all. -/
theorem create_invalid_duration_still_provisions (env : CreateEnv)
    (provider instance_type timeout : String) (st : Core.GmlState)
    (details : NodeDetails) (user : String)
    (hd : env.ensure_daemon = .ok ()) (hc : env.parse_config = .ok ())
    (hp : env.providerInConfig = true) (hh : env.provider_handle = .ok ())
    (hs : env.start_node = .ok details) (hu : env.get_user = .ok user)
    (hparse : env.humantimeParse timeout = none)
    (hfresh : ∀ n ∈ st.nodes, n.id ≠ details.id) :
    handle_create_node env provider instance_type timeout st =
      (.ok (), { st with nodes := st.nodes ++
        [{ id := details.id, provider_id := details.id, ip := details.ip,
           provider := provider, created_at := env.fmtTs env.now,
           instance_type := instance_type, user := user, timeout := none }] },
        [.startNodeOk, .storeAddOk]) := by
  have hany : st.nodes.any (fun n => n.id == details.id) = false := by
    rw [List.any_eq_false]
    intro n hn
    simpa using hfresh n hn
  obtain ⟨d, c, pic, ph, sn, gu, hpar, cf, now, fmt⟩ := env
  simp only at hd hc hp hh hs hu hparse ⊢
  subst hd hc hp hh hs hu
  simp [handle_create_node, parse_timeout_duration, hparse, Core.GmlState.add_node, hany]

/-- Witness for C10: the timeout string "banana" does not parse as a
duration, yet the node is provisioned and recorded with `timeout = none`. -/
theorem create_invalid_duration_still_provisions_witness :
    handle_create_node
        ⟨.ok (), .ok (), true, .ok (), .ok ⟨"9.9.9.9", "n7"⟩, .ok "ubuntu",
          fun _ => none, fun d => some d, 100, fun n => toString n⟩
        "lambda" "gpu_1x_a10" "banana" ⟨[], []⟩ =
      (.ok (), ⟨[⟨"n7", "n7", "9.9.9.9", "lambda", "100", "gpu_1x_a10", "ubuntu", none⟩], []⟩,
        [.startNodeOk, .storeAddOk]) := by
  have h := create_invalid_duration_still_provisions
    ⟨.ok (), .ok (), true, .ok (), .ok ⟨"9.9.9.9", "n7"⟩, .ok "ubuntu",
      fun _ => none, fun d => some d, 100, fun n => toString n⟩
    "lambda" "gpu_1x_a10" "banana" ⟨[], []⟩ ⟨"9.9.9.9", "n7"⟩ "ubuntu"
    rfl rfl rfl rfl rfl rfl rfl (by simp)
  simpa using h

lemma expiredNode_false_of_lt (p : String → Option Int) (now t : Int)
    (e : Core.NodeEntry) (s : String) (hts : e.timeout = some s) (hps : p s = some t)
    (hlt : now < t) : expiredNode p now e = false := by
  simp only [expiredNode, hts, hps, decide_eq_false_iff_not]
  omega

lemma expiredNode_true_of_le (p : String → Option Int) (now t : Int)
    (e : Core.NodeEntry) (s : String) (hts : e.timeout = some s) (hps : p s = some t)
    (hle : ¬ now < t) : expiredNode p now e = true := by
  simp only [expiredNode, hts, hps, decide_eq_true_eq]
  omega

lemma nodeFold_attempts (p : String → Option Int) (now : Int) (d : String → Bool) :
    ∀ (l : List Core.NodeEntry) (acc : Core.GmlState × List TickEvent),
      (l.foldl (nodeStep p now d) acc).2.filterMap nodeAttemptId =
        acc.2.filterMap nodeAttemptId ++ (l.filter (expiredNode p now)).map (·.id) := by
  intro l
  induction l with
  | nil => intro acc; simp
  | cons e l ih =>
      intro acc
      rw [List.foldl_cons, ih]
      cases hts : e.timeout with
      | none => simp [nodeStep, expiredNode, hts]
      | some s =>
          cases hps : p s with
          | none =>
              simp [nodeStep, expiredNode, hts, hps, List.filterMap_append, nodeAttemptId]
          | some t =>
              by_cases hlt : now < t
              · have hexp := expiredNode_false_of_lt p now t e s hts hps hlt
                simp [nodeStep, hts, hps, hlt, hexp]
              · have hexp := expiredNode_true_of_le p now t e s hts hps hlt
                by_cases hd : d e.id <;>
                  simp [nodeStep, hts, hps, hlt, hd, hexp, List.filterMap_append,
                    nodeAttemptId]

lemma nodeFold_cluster_attempts (p : String → Option Int) (now : Int) (d : String → Bool) :
    ∀ (l : List Core.NodeEntry) (acc : Core.GmlState × List TickEvent),
      (l.foldl (nodeStep p now d) acc).2.filterMap clusterAttemptId =
        acc.2.filterMap clusterAttemptId := by
  intro l
  induction l with
  | nil => intro acc; simp
  | cons e l ih =>
      intro acc
      rw [List.foldl_cons, ih]
      cases hts : e.timeout with
      | none => simp [nodeStep, hts]
      | some s =>
          cases hps : p s with
          | none => simp [nodeStep, hts, hps, List.filterMap_append, clusterAttemptId]
          | some t =>
              by_cases hlt : now < t
              · simp [nodeStep, hts, hps, hlt]
              · by_cases hd : d e.id <;>
                  simp [nodeStep, hts, hps, hlt, hd, List.filterMap_append, clusterAttemptId]

lemma clusterFold_attempts (p : String → Option Int) (now : Int) (d : String → Bool) :
    ∀ (l : List Core.ClusterEntry) (acc : Core.GmlState × List TickEvent),
      (l.foldl (clusterStep p now d) acc).2.filterMap clusterAttemptId =
        acc.2.filterMap clusterAttemptId ++ (l.filter (expiredCluster p now)).map (·.id) := by
  intro l
  induction l with
  | nil => intro acc; simp
  | cons c l ih =>
      intro acc
      rw [List.foldl_cons, ih]
      cases hts : c.timeout with
      | none => simp [clusterStep, expiredCluster, hts]
      | some s =>
          cases hps : p s with
          | none =>
              simp [clusterStep, expiredCluster, hts, hps, List.filterMap_append,
                clusterAttemptId]
          | some t =>
              by_cases hlt : now < t
              · have hexp : expiredCluster p now c = false := by
                  simp only [expiredCluster, hts, hps, decide_eq_false_iff_not]
                  omega
                simp [clusterStep, hts, hps, hlt, hexp]
              · have hexp : expiredCluster p now c = true := by
                  simp only [expiredCluster, hts, hps, decide_eq_true_eq]
                  omega
                by_cases hd : d c.id <;>
                  simp [clusterStep, hts, hps, hlt, hd, hexp, List.filterMap_append,
                    clusterAttemptId]

lemma clusterFold_node_attempts (p : String → Option Int) (now : Int) (d : String → Bool) :
    ∀ (l : List Core.ClusterEntry) (acc : Core.GmlState × List TickEvent),
      (l.foldl (clusterStep p now d) acc).2.filterMap nodeAttemptId =
        acc.2.filterMap nodeAttemptId := by
  intro l
  induction l with
  | nil => intro acc; simp
  | cons c l ih =>
      intro acc
      rw [List.foldl_cons, ih]
      cases hts : c.timeout with
      | none => simp [clusterStep, hts]
      | some s =>
          cases hps : p s with
          | none => simp [clusterStep, hts, hps, List.filterMap_append, nodeAttemptId]
          | some t =>
              by_cases hlt : now < t
              · simp [clusterStep, hts, hps, hlt]
              · by_cases hd : d c.id <;>
                  simp [clusterStep, hts, hps, hlt, hd, List.filterMap_append, nodeAttemptId]

lemma nodeFold_nodes (p : String → Option Int) (now : Int) (d : String → Bool) :
    ∀ (l : List Core.NodeEntry) (acc : Core.GmlState × List TickEvent),
      (l.foldl (nodeStep p now d) acc).1.nodes =
        acc.1.nodes.filter (nodeSurvives p now d l) := by
  intro l
  induction l with
  | nil =>
      intro acc
      have htriv : nodeSurvives p now d [] = fun _ => true := by
        funext n
        simp [nodeSurvives]
      rw [htriv, List.filter_true]
      rfl
  | cons e l ih =>
      intro acc
      rw [List.foldl_cons, ih]
      cases hts : e.timeout with
      | none =>
          have hexp : expiredNode p now e = false := by simp [expiredNode, hts]
          have hfun : nodeSurvives p now d (e :: l) = nodeSurvives p now d l := by
            funext n
            simp [nodeSurvives, List.all_cons, hexp]
          rw [hfun]
          simp [nodeStep, hts]
      | some s =>
          cases hps : p s with
          | none =>
              have hexp : expiredNode p now e = false := by simp [expiredNode, hts, hps]
              have hfun : nodeSurvives p now d (e :: l) = nodeSurvives p now d l := by
                funext n
                simp [nodeSurvives, List.all_cons, hexp]
              rw [hfun]
              simp [nodeStep, hts, hps]
          | some t =>
              by_cases hlt : now < t
              · have hexp := expiredNode_false_of_lt p now t e s hts hps hlt
                have hfun : nodeSurvives p now d (e :: l) = nodeSurvives p now d l := by
                  funext n
                  simp [nodeSurvives, List.all_cons, hexp]
                rw [hfun]
                simp [nodeStep, hts, hps, hlt]
              · have hexp := expiredNode_true_of_le p now t e s hts hps hlt
                by_cases hd : d e.id
                · have hred : (nodeStep p now d acc e).1.nodes =
                      acc.1.nodes.filter (fun n => n.id != e.id) := by
                    simp [nodeStep, hts, hps, hlt, hd]
                  rw [hred, List.filter_filter]
                  refine List.filter_congr ?_
                  intro n _
                  simp [nodeSurvives, List.all_cons, hexp, hd, bne, Bool.and_comm]
                · have hfun : nodeSurvives p now d (e :: l) = nodeSurvives p now d l := by
                    funext n
                    simp [nodeSurvives, List.all_cons, hexp, hd]
                  rw [hfun]
                  simp [nodeStep, hts, hps, hlt, hd]

lemma nodeFold_clusters (p : String → Option Int) (now : Int) (d : String → Bool) :
    ∀ (l : List Core.NodeEntry) (acc : Core.GmlState × List TickEvent),
      (l.foldl (nodeStep p now d) acc).1.clusters = acc.1.clusters := by
  intro l
  induction l with
  | nil => intro acc; simp
  | cons e l ih =>
      intro acc
      rw [List.foldl_cons, ih]
      cases hts : e.timeout with
      | none => simp [nodeStep, hts]
      | some s =>
          cases hps : p s with
          | none => simp [nodeStep, hts, hps]
          | some t =>
              by_cases hlt : now < t
              · simp [nodeStep, hts, hps, hlt]
              · by_cases hd : d e.id <;> simp [nodeStep, hts, hps, hlt, hd]

lemma clusterFold_nodes (p : String → Option Int) (now : Int) (d : String → Bool) :
    ∀ (l : List Core.ClusterEntry) (acc : Core.GmlState × List TickEvent),
      (l.foldl (clusterStep p now d) acc).1.nodes = acc.1.nodes := by
  intro l
  induction l with
  | nil => intro acc; simp
  | cons c l ih =>
      intro acc
      rw [List.foldl_cons, ih]
      cases hts : c.timeout with
      | none => simp [clusterStep, hts]
      | some s =>
          cases hps : p s with
          | none => simp [clusterStep, hts, hps]
          | some t =>
              by_cases hlt : now < t
              · simp [clusterStep, hts, hps, hlt]
              · by_cases hd : d c.id <;> simp [clusterStep, hts, hps, hlt, hd]

lemma clusterFold_clusters (p : String → Option Int) (now : Int) (d : String → Bool) :
    ∀ (l : List Core.ClusterEntry) (acc : Core.GmlState × List TickEvent),
      (l.foldl (clusterStep p now d) acc).1.clusters =
        acc.1.clusters.filter (clusterSurvives p now d l) := by
  intro l
  induction l with
  | nil =>
      intro acc
      have htriv : clusterSurvives p now d [] = fun _ => true := by
        funext k
        simp [clusterSurvives]
      rw [htriv, List.filter_true]
      rfl
  | cons c l ih =>
      intro acc
      rw [List.foldl_cons, ih]
      cases hts : c.timeout with
      | none =>
          have hexp : expiredCluster p now c = false := by simp [expiredCluster, hts]
          have hfun : clusterSurvives p now d (c :: l) = clusterSurvives p now d l := by
            funext k
            simp [clusterSurvives, List.all_cons, hexp]
          rw [hfun]
          simp [clusterStep, hts]
      | some s =>
          cases hps : p s with
          | none =>
              have hexp : expiredCluster p now c = false := by
                simp [expiredCluster, hts, hps]
              have hfun : clusterSurvives p now d (c :: l) = clusterSurvives p now d l := by
                funext k
                simp [clusterSurvives, List.all_cons, hexp]
              rw [hfun]
              simp [clusterStep, hts, hps]
          | some t =>
              by_cases hlt : now < t
              · have hexp : expiredCluster p now c = false := by
                  simp only [expiredCluster, hts, hps, decide_eq_false_iff_not]
                  omega
                have hfun : clusterSurvives p now d (c :: l) = clusterSurvives p now d l := by
                  funext k
                  simp [clusterSurvives, List.all_cons, hexp]
                rw [hfun]
                simp [clusterStep, hts, hps, hlt]
              · have hexp : expiredCluster p now c = true := by
                  simp only [expiredCluster, hts, hps, decide_eq_true_eq]
                  omega
                by_cases hd : d c.id
                · have hred : (clusterStep p now d acc c).1.clusters =
                      acc.1.clusters.filter (fun k => k.id != c.id) := by
                    simp [clusterStep, hts, hps, hlt, hd]
                  rw [hred, List.filter_filter]
                  refine List.filter_congr ?_
                  intro k _
                  simp [clusterSurvives, List.all_cons, hexp, hd, bne, Bool.and_comm]
                · have hfun : clusterSurvives p now d (c :: l) = clusterSurvives p now d l := by
                    funext k
                    simp [clusterSurvives, List.all_cons, hexp, hd]
                  rw [hfun]
                  simp [clusterStep, hts, hps, hlt, hd]

lemma nodeFold_events_mono (p : String → Option Int) (now : Int) (d : String → Bool) :
    ∀ (l : List Core.NodeEntry) (acc : Core.GmlState × List TickEvent) (x : TickEvent),
      x ∈ acc.2 → x ∈ (l.foldl (nodeStep p now d) acc).2 := by
  intro l
  induction l with
  | nil => intro acc x hx; simpa using hx
  | cons e l ih =>
      intro acc x hx
      rw [List.foldl_cons]
      apply ih
      cases hts : e.timeout with
      | none => simpa [nodeStep, hts] using hx
      | some s =>
          cases hps : p s with
          | none => simp [nodeStep, hts, hps, hx]
          | some t =>
              by_cases hlt : now < t
              · simpa [nodeStep, hts, hps, hlt] using hx
              · by_cases hd : d e.id <;> simp [nodeStep, hts, hps, hlt, hd, hx]

lemma clusterFold_events_mono (p : String → Option Int) (now : Int) (d : String → Bool) :
    ∀ (l : List Core.ClusterEntry) (acc : Core.GmlState × List TickEvent) (x : TickEvent),
      x ∈ acc.2 → x ∈ (l.foldl (clusterStep p now d) acc).2 := by
  intro l
  induction l with
  | nil => intro acc x hx; simpa using hx
  | cons c l ih =>
      intro acc x hx
      rw [List.foldl_cons]
      apply ih
      cases hts : c.timeout with
      | none => simpa [clusterStep, hts] using hx
      | some s =>
          cases hps : p s with
          | none => simp [clusterStep, hts, hps, hx]
          | some t =>
              by_cases hlt : now < t
              · simpa [clusterStep, hts, hps, hlt] using hx
              · by_cases hd : d c.id <;> simp [clusterStep, hts, hps, hlt, hd, hx]

lemma nodeFold_deleteFailed_mem (p : String → Option Int) (now : Int) (d : String → Bool) :
    ∀ (l : List Core.NodeEntry) (acc : Core.GmlState × List TickEvent)
      (e : Core.NodeEntry), e ∈ l → expiredNode p now e = true → d e.id = false →
      TickEvent.nodeDeleteFailed e.id ∈ (l.foldl (nodeStep p now d) acc).2 := by
  intro l
  induction l with
  | nil => intro acc e he; simp at he
  | cons e0 l ih =>
      intro acc e he hexp hd
      rw [List.foldl_cons]
      rcases List.mem_cons.mp he with rfl | he
      · apply nodeFold_events_mono
        cases hts : e.timeout with
        | none => simp [expiredNode, hts] at hexp
        | some s =>
            cases hps : p s with
            | none => simp [expiredNode, hts, hps] at hexp
            | some t =>
                have hlt : ¬ now < t := by
                  simp only [expiredNode, hts, hps, decide_eq_true_eq] at hexp
                  omega
                simp [nodeStep, hts, hps, hlt, hd]
      · exact ih _ e he hexp hd

lemma nodeFold_parseFailed_mem (p : String → Option Int) (now : Int) (d : String → Bool) :
    ∀ (l : List Core.NodeEntry) (acc : Core.GmlState × List TickEvent)
      (e : Core.NodeEntry) (s : String), e ∈ l → e.timeout = some s → p s = none →
      TickEvent.nodeParseFailed e.id ∈ (l.foldl (nodeStep p now d) acc).2 := by
  intro l
  induction l with
  | nil => intro acc e s he; simp at he
  | cons e0 l ih =>
      intro acc e s he hts hps
      rw [List.foldl_cons]
      rcases List.mem_cons.mp he with rfl | he
      · apply nodeFold_events_mono
        simp [nodeStep, hts, hps]
      · exact ih _ e s he hts hps

lemma nodeSurvives_of_unique (p : String → Option Int) (now : Int) (d : String → Bool)
    (l : List Core.NodeEntry) (e : Core.NodeEntry)
    (hunique : ∀ e0 ∈ l, e0.id = e.id → e0 = e)
    (h : expiredNode p now e = false ∨ d e.id = false) :
    nodeSurvives p now d l e = true := by
  rw [nodeSurvives, List.all_eq_true]
  intro e0 he0
  by_cases hid : e0.id = e.id
  · have : e0 = e := hunique e0 he0 hid
    subst this
    rcases h with h | h <;> simp [h]
  · have : (e.id == e0.id) = false := by
      simp [beq_eq_false_iff_ne]
      exact fun hc => hid hc.symm
    simp [this]

/-- C7: one daemon tick attempts deletion exactly for the nodes and
clusters whose timeout parses and is less than or equal to the tick's
wall-clock now (in processing order), and an entry with no timeout or a
strictly future timeout is left untouched in the store (its id being
unique in its collection, per the store invariant). -/
theorem tick_deletes_exactly_expired (p : String → Option Int) (now : Int)
    (dN dC : String → Bool) (st : Core.GmlState) :
    nodeDeleteAttempts (tick p now dN dC st).2 =
        (st.nodes.filter (expiredNode p now)).map (·.id)
    ∧ clusterDeleteAttempts (tick p now dN dC st).2 =
        (st.clusters.filter (expiredCluster p now)).map (·.id)
    ∧ (∀ e ∈ st.nodes, (∀ e0 ∈ st.nodes, e0.id = e.id → e0 = e) →
        expiredNode p now e = false → e ∈ (tick p now dN dC st).1.nodes)
    ∧ (∀ c ∈ st.clusters, (∀ c0 ∈ st.clusters, c0.id = c.id → c0 = c) →
        expiredCluster p now c = false → c ∈ (tick p now dN dC st).1.clusters) := by
  refine ⟨?_, ?_, ?_, ?_⟩
  · rw [nodeDeleteAttempts, tick, clusterFold_node_attempts, nodeFold_attempts]
    simp
  · rw [clusterDeleteAttempts, tick, clusterFold_attempts, nodeFold_cluster_attempts]
    simp
  · intro e he hunique hexp
    rw [tick, clusterFold_nodes, nodeFold_nodes]
    rw [List.mem_filter]
    exact ⟨he, nodeSurvives_of_unique p now dN st.nodes e hunique (.inl hexp)⟩
  · intro c hc hunique hexp
    rw [tick, clusterFold_clusters, nodeFold_clusters]
    rw [List.mem_filter]
    refine ⟨hc, ?_⟩
    rw [clusterSurvives, List.all_eq_true]
    intro c0 hc0
    by_cases hid : c0.id = c.id
    · have : c0 = c := hunique c0 hc0 hid
      subst this
      simp [hexp]
    · have : (c.id == c0.id) = false := by
        simp [beq_eq_false_iff_ne]
        exact fun hcon => hid hcon.symm
      simp [this]

/-- Witness for C7: with `now = 100`, a node whose timeout parses to 99
(one second in the past) has its deletion attempted, and a node with no
timeout is left untouched in the store. -/
theorem tick_deletes_exactly_expired_witness :
    nodeDeleteAttempts
        (tick (fun s => if s = "99" then some 99 else none) 100
          (fun _ => true) (fun _ => true)
          ⟨[⟨"n1", "n1", "1.2.3.4", "lambda", "t0", "gpu_1x_a10", "ubuntu", some "99"⟩,
            ⟨"n2", "n2", "5.6.7.8", "lambda", "t0", "gpu_1x_a10", "ubuntu", none⟩],
            []⟩).2 = ["n1"]
    ∧ (⟨"n2", "n2", "5.6.7.8", "lambda", "t0", "gpu_1x_a10", "ubuntu", none⟩ :
        Core.NodeEntry) ∈
        (tick (fun s => if s = "99" then some 99 else none) 100
          (fun _ => true) (fun _ => true)
          ⟨[⟨"n1", "n1", "1.2.3.4", "lambda", "t0", "gpu_1x_a10", "ubuntu", some "99"⟩,
            ⟨"n2", "n2", "5.6.7.8", "lambda", "t0", "gpu_1x_a10", "ubuntu", none⟩],
            []⟩).1.nodes := by
  constructor
  · have h := (tick_deletes_exactly_expired (fun s => if s = "99" then some 99 else none)
      100 (fun _ => true) (fun _ => true)
      ⟨[⟨"n1", "n1", "1.2.3.4", "lambda", "t0", "gpu_1x_a10", "ubuntu", some "99"⟩,
        ⟨"n2", "n2", "5.6.7.8", "lambda", "t0", "gpu_1x_a10", "ubuntu", none⟩], []⟩).1
    rw [h]
    decide
  · exact (tick_deletes_exactly_expired (fun s => if s = "99" then some 99 else none)
      100 (fun _ => true) (fun _ => true)
      ⟨[⟨"n1", "n1", "1.2.3.4", "lambda", "t0", "gpu_1x_a10", "ubuntu", some "99"⟩,
        ⟨"n2", "n2", "5.6.7.8", "lambda", "t0", "gpu_1x_a10", "ubuntu", none⟩], []⟩).2.2.1
      ⟨"n2", "n2", "5.6.7.8", "lambda", "t0", "gpu_1x_a10", "ubuntu", none⟩
      (by simp) (by decide) (by decide)

/-- C8: per-entity failures are isolated within a tick — which deletions
are attempted does not depend on the outcomes of the delete subprocesses
(so one failure never suppresses another entity's attempt), a node whose
expired deletion fails is logged with a failure event and remains in the
store for the next tick, and a node with a malformed timeout is logged
with a parse-failure event and likewise remains. -/
theorem tick_isolates_failures (p : String → Option Int) (now : Int)
    (d1 dc1 d2 dc2 : String → Bool) (st : Core.GmlState) (e : Core.NodeEntry)
    (he : e ∈ st.nodes) (hunique : ∀ e0 ∈ st.nodes, e0.id = e.id → e0 = e) :
    (nodeDeleteAttempts (tick p now d1 dc1 st).2 =
        nodeDeleteAttempts (tick p now d2 dc2 st).2
      ∧ clusterDeleteAttempts (tick p now d1 dc1 st).2 =
          clusterDeleteAttempts (tick p now d2 dc2 st).2)
    ∧ (expiredNode p now e = true → d1 e.id = false →
        TickEvent.nodeDeleteFailed e.id ∈ (tick p now d1 dc1 st).2
          ∧ e ∈ (tick p now d1 dc1 st).1.nodes)
    ∧ (∀ s, e.timeout = some s → p s = none →
        TickEvent.nodeParseFailed e.id ∈ (tick p now d1 dc1 st).2
          ∧ e ∈ (tick p now d1 dc1 st).1.nodes) := by
  refine ⟨⟨?_, ?_⟩, ?_, ?_⟩
  · rw [nodeDeleteAttempts, nodeDeleteAttempts, tick, tick,
      clusterFold_node_attempts, clusterFold_node_attempts,
      nodeFold_attempts, nodeFold_attempts]
  · rw [clusterDeleteAttempts, clusterDeleteAttempts, tick, tick,
      clusterFold_attempts, clusterFold_attempts,
      nodeFold_cluster_attempts, nodeFold_cluster_attempts]
  · intro hexp hd
    constructor
    · rw [tick]
      apply clusterFold_events_mono
      exact nodeFold_deleteFailed_mem p now d1 st.nodes _ e he hexp hd
    · rw [tick, clusterFold_nodes, nodeFold_nodes, List.mem_filter]
      exact ⟨he, nodeSurvives_of_unique p now d1 st.nodes e hunique (.inr hd)⟩
  · intro s hts hps
    constructor
    · rw [tick]
      apply clusterFold_events_mono
      exact nodeFold_parseFailed_mem p now d1 st.nodes _ e s he hts hps
    · have hexp : expiredNode p now e = false := by simp [expiredNode, hts, hps]
      rw [tick, clusterFold_nodes, nodeFold_nodes, List.mem_filter]
      exact ⟨he, nodeSurvives_of_unique p now d1 st.nodes e hunique (.inl hexp)⟩

/-- Witness for C8: with two expired nodes and a delete subprocess that
fails exactly on "n1", both deletions are still attempted (the same ids as
with an always-succeeding subprocess), the failure on "n1" is logged, and
"n1" remains in the store. -/
theorem tick_isolates_failures_witness :
    nodeDeleteAttempts
        (tick (fun s => if s = "99" then some 99 else none) 100
          (fun id => id != "n1") (fun _ => true)
          ⟨[⟨"n1", "n1", "1.2.3.4", "lambda", "t0", "gpu_1x_a10", "ubuntu", some "99"⟩,
            ⟨"n2", "n2", "5.6.7.8", "lambda", "t0", "gpu_1x_a10", "ubuntu", some "99"⟩],
            []⟩).2 =
      nodeDeleteAttempts
        (tick (fun s => if s = "99" then some 99 else none) 100
          (fun _ => true) (fun _ => true)
          ⟨[⟨"n1", "n1", "1.2.3.4", "lambda", "t0", "gpu_1x_a10", "ubuntu", some "99"⟩,
            ⟨"n2", "n2", "5.6.7.8", "lambda", "t0", "gpu_1x_a10", "ubuntu", some "99"⟩],
            []⟩).2
    ∧ TickEvent.nodeDeleteFailed "n1" ∈
        (tick (fun s => if s = "99" then some 99 else none) 100
          (fun id => id != "n1") (fun _ => true)
          ⟨[⟨"n1", "n1", "1.2.3.4", "lambda", "t0", "gpu_1x_a10", "ubuntu", some "99"⟩,
            ⟨"n2", "n2", "5.6.7.8", "lambda", "t0", "gpu_1x_a10", "ubuntu", some "99"⟩],
            []⟩).2
    ∧ (⟨"n1", "n1", "1.2.3.4", "lambda", "t0", "gpu_1x_a10", "ubuntu", some "99"⟩ :
        Core.NodeEntry) ∈
        (tick (fun s => if s = "99" then some 99 else none) 100
          (fun id => id != "n1") (fun _ => true)
          ⟨[⟨"n1", "n1", "1.2.3.4", "lambda", "t0", "gpu_1x_a10", "ubuntu", some "99"⟩,
            ⟨"n2", "n2", "5.6.7.8", "lambda", "t0", "gpu_1x_a10", "ubuntu", some "99"⟩],
            []⟩).1.nodes := by
  have h := tick_isolates_failures (fun s => if s = "99" then some 99 else none) 100
    (fun id => id != "n1") (fun _ => true) (fun _ => true) (fun _ => true)
    ⟨[⟨"n1", "n1", "1.2.3.4", "lambda", "t0", "gpu_1x_a10", "ubuntu", some "99"⟩,
      ⟨"n2", "n2", "5.6.7.8", "lambda", "t0", "gpu_1x_a10", "ubuntu", some "99"⟩], []⟩
    ⟨"n1", "n1", "1.2.3.4", "lambda", "t0", "gpu_1x_a10", "ubuntu", some "99"⟩
    (by simp) (by decide)
  exact ⟨h.1.1, (h.2.1 (by decide) (by decide)).1, (h.2.1 (by decide) (by decide)).2⟩

lemma lookup_map_valmap (g : String → Json → Json) :
    ∀ (l : List (String × Json)) (k : String),
      List.lookup k (l.map (fun kv => (kv.1, g kv.1 kv.2))) =
        (List.lookup k l).map (g k) := by
  intro l k
  induction l with
  | nil => rfl
  | cons kv l ih =>
      obtain ⟨a, b⟩ := kv
      by_cases hk : (k == a) = true
      · have hka : k = a := by simpa using hk
        subst hka
        simp [List.lookup]
      · simp [List.lookup, hk, ih]

lemma availNonEmpty_iff (v : Json) :
    availNonEmpty v = true ↔
      ∃ regions, jsonGet v "regions_with_capacity_available" = some (.jarr regions) ∧
        regions ≠ [] := by
  unfold availNonEmpty
  cases hg : jsonGet v "regions_with_capacity_available" with
  | none => simp
  | some w =>
      cases w with
      | jarr r => simp [hg, List.isEmpty_iff]
      | null => simp [hg]
      | jbool b => simp [hg]
      | jnum n => simp [hg]
      | jstr s => simp [hg]
      | jobj o => simp [hg]

/-- C9: when the parsed catalogue response has an object `"data"` member,
the filtered result's `"data"` member holds exactly those instance-type
entries of the response whose `regions_with_capacity_available` member is
a non-empty array — an entry appears in the result if and only if it
appeared in the response with a non-empty availability list, and entries
whose list is empty, absent, or not a list are excluded. -/
theorem node_types_exactly_available (fields dataFields : List (String × Json))
    (h : jsonGet (Json.jobj fields) "data" = some (.jobj dataFields)) :
    jsonGet (get_node_types_filter (Json.jobj fields)) "data" =
        some (.jobj (dataFields.filter (fun p => availNonEmpty p.2)))
    ∧ ∀ name v, ((name, v) ∈ dataFields.filter (fun p => availNonEmpty p.2) ↔
        ((name, v) ∈ dataFields ∧
          ∃ regions, jsonGet v "regions_with_capacity_available" = some (.jarr regions) ∧
            regions ≠ [])) := by
  constructor
  · simp only [jsonGet] at h ⊢
    rw [get_node_types_filter]
    simp only [jsonGet]
    rw [lookup_map_valmap filterDataValue fields "data", h]
    simp [filterDataValue]
  · intro name v
    rw [List.mem_filter]
    simp [availNonEmpty_iff]

/-- Witness for C9 on a concrete catalogue: `gpu_a` (one available region)
is kept, `gpu_b` (empty availability list) is excluded. -/
theorem node_types_exactly_available_witness :
    jsonGet (get_node_types_filter (Json.jobj
        [("data", Json.jobj
          [("gpu_a", Json.jobj
              [("regions_with_capacity_available", Json.jarr [Json.jstr "us-east-1"])]),
            ("gpu_b", Json.jobj
              [("regions_with_capacity_available", Json.jarr [])])])])) "data" =
      some (Json.jobj
        ([("gpu_a", Json.jobj
            [("regions_with_capacity_available", Json.jarr [Json.jstr "us-east-1"])]),
          ("gpu_b", Json.jobj
            [("regions_with_capacity_available", Json.jarr [])])].filter
          (fun p => availNonEmpty p.2)))
    ∧ ("gpu_a", Json.jobj
          [("regions_with_capacity_available", Json.jarr [Json.jstr "us-east-1"])]) ∈
        ([("gpu_a", Json.jobj
            [("regions_with_capacity_available", Json.jarr [Json.jstr "us-east-1"])]),
          ("gpu_b", Json.jobj
            [("regions_with_capacity_available", Json.jarr [])])].filter
          (fun p => availNonEmpty p.2))
    ∧ ("gpu_b", Json.jobj
          [("regions_with_capacity_available", Json.jarr [])]) ∉
        ([("gpu_a", Json.jobj
            [("regions_with_capacity_available", Json.jarr [Json.jstr "us-east-1"])]),
          ("gpu_b", Json.jobj
            [("regions_with_capacity_available", Json.jarr [])])].filter
          (fun p => availNonEmpty p.2)) := by
  have h := node_types_exactly_available
    [("data", Json.jobj
      [("gpu_a", Json.jobj
          [("regions_with_capacity_available", Json.jarr [Json.jstr "us-east-1"])]),
        ("gpu_b", Json.jobj
          [("regions_with_capacity_available", Json.jarr [])])])]
    [("gpu_a", Json.jobj
        [("regions_with_capacity_available", Json.jarr [Json.jstr "us-east-1"])]),
      ("gpu_b", Json.jobj
        [("regions_with_capacity_available", Json.jarr [])])]
    rfl
  refine ⟨h.1, ?_, ?_⟩
  · refine (h.2 "gpu_a" (Json.jobj
      [("regions_with_capacity_available", Json.jarr [Json.jstr "us-east-1"])])).mpr
      ⟨by simp, [Json.jstr "us-east-1"], rfl, by simp⟩
  · intro hmem
    obtain ⟨-, r, hr, hne⟩ := (h.2 "gpu_b" (Json.jobj
      [("regions_with_capacity_available", Json.jarr [])])).mp hmem
    have h0 : jsonGet (Json.jobj [("regions_with_capacity_available", Json.jarr [])])
        "regions_with_capacity_available" = some (Json.jarr []) := rfl
    have hsome := Option.some.inj (h0.symm.trans hr)
    have hr0 : ([] : List Json) = r := by
      injection hsome
    exact hne hr0.symm

/-- Witness for C6: a store already holding node "n1" rejects a second add
of id "n1" with the duplicate error, saving nothing. -/
theorem add_node_duplicate_noop_witness :
    GmlState.add_node
        ⟨[⟨"n1", "1.2.3.4", "lambda", "t0", "gpu_1x_a10"⟩], []⟩
        ⟨"5.6.7.8", "n1"⟩ "lambda" "gpu_1x_a10" "t1" =
      ⟨.error (.duplicateNode "n1"),
        ⟨[⟨"n1", "1.2.3.4", "lambda", "t0", "gpu_1x_a10"⟩], []⟩, false⟩ :=
  add_node_duplicate_noop _ _ _ _ _
    ⟨⟨"n1", "1.2.3.4", "lambda", "t0", "gpu_1x_a10"⟩, by simp, rfl⟩

end Gml
